import Mathlib

set_option maxRecDepth 20000

/-!
Verification of the VPN server registry core (`src/app/api/vpn-servers/route.ts`).

The file shallowly embeds the route handler: the CSV feed parser
(`fetchVPNData`'s parsing loop), the in-memory cache (`isCacheValid`,
`getCachedData`, `setCacheData`), the sort/paginate query step, and the `GET`
handler itself.  JavaScript peculiarities that the handler relies on are
modelled explicitly:

* `Number.parseInt` returns `Option Int` (`none` = `NaN`);
* `x || d` picks `d` when `x` is `null` or the empty string;
* `Array.prototype.slice` index normalisation (negative indices count from the
  end, `NaN` becomes 0);
* `Array.prototype.sort` with a comparator returning `NaN` treats the pair as
  equal (ECMAScript `SortCompare` maps `NaN` to `+0`); the sort itself is
  modelled as the stable insertion sort V8 uses for small arrays, scanning
  from the right of the sorted prefix;
* `NaN` arithmetic (`NaN + x = NaN`, `NaN < x = false`).

Time is a single `now : Int` parameter per request (the handler's several
`Date.now()` calls within one request are idealised to one instant).
The network fetch is an explicit `Except String String` argument: `.ok raw`
models a 2xx response with body `raw`, `.error msg` models a thrown error or a
non-success status.
-/

/-- JavaScript whitespace characters recognised by `parseInt` (ASCII subset). -/
def jsIsSpace (c : Char) : Bool :=
  c = ' ' || c = '\t' || c = '\n' || c = '\r' || c = '\x0b' || c = '\x0c'

/-- Value of a character as a digit in some base (`'a'`/`'A'` = 10, ...). -/
def digitValue (c : Char) : Option Nat :=
  if '0' ≤ c ∧ c ≤ '9' then some (c.toNat - '0'.toNat)
  else if 'a' ≤ c ∧ c ≤ 'z' then some (c.toNat - 'a'.toNat + 10)
  else if 'A' ≤ c ∧ c ≤ 'Z' then some (c.toNat - 'A'.toNat + 10)
  else none

/-- Accumulate the longest prefix of digits valid in `base`; `none` when no
digit was consumed (JavaScript `parseInt` then yields `NaN`). -/
def parseDigits (base : Nat) : List Char → Option Nat → Option Nat
  | [], acc => acc
  | c :: cs, acc =>
    match digitValue c with
    | some v => if v < base then parseDigits base cs (some ((acc.getD 0) * base + v)) else acc
    | none => acc

/-- JavaScript `Number.parseInt(s)` (radix auto-detection of `0x`): `none`
models `NaN`. -/
def jsParseInt (s : String) : Option Int :=
  let cs := s.toList.dropWhile jsIsSpace
  let sign : Int := if cs.head? = some '-' then -1 else 1
  let cs := if cs.head? = some '-' ∨ cs.head? = some '+' then cs.tail else cs
  let hex : Bool := cs.take 2 = ['0', 'x'] ∨ cs.take 2 = ['0', 'X']
  let cs := if hex then cs.drop 2 else cs
  match parseDigits (if hex then 16 else 10) cs none with
  | some n => some (sign * n)
  | none => none

/-- `Number.parseInt(s) || 0`: `NaN` (and `-0`) collapse to `0`. -/
def jsParseIntOr0 (s : String) : Int := (jsParseInt s).getD 0

/-- `x || d` for an optional string: `null` and `""` are falsy. -/
def jsOrDefault (o : Option String) (d : String) : String :=
  match o with
  | none => d
  | some s => if s = "" then d else s

/-- `NaN`-propagating addition on JavaScript integers. -/
def optAdd : Option Int → Option Int → Option Int
  | some a, some b => some (a + b)
  | _, _ => none

/-- `x < n` on JavaScript integers where `x` may be `NaN` (always `false`). -/
def optLt (o : Option Int) (n : Int) : Bool :=
  match o with
  | some v => decide (v < n)
  | none => false

/-- ECMAScript `Array.prototype.slice` index normalisation: a negative index
counts from the end (floored at 0), a non-negative one is capped at `len`. -/
def jsSliceIdx (len : Nat) (k : Int) : Nat :=
  if k < 0 then (max ((len : Int) + k) 0).toNat else min k.toNat len

/-- `l.slice(s, e)` where either argument may be `NaN`
(`ToIntegerOrInfinity(NaN) = 0`). -/
def jsSlice {α : Type} (l : List α) (s e : Option Int) : List α :=
  (l.take (jsSliceIdx l.length (e.getD 0))).drop (jsSliceIdx l.length (s.getD 0))

/-- Insert `x` into the REVERSED sorted prefix `acc`: `x` sinks left past the
previous elements while the comparator says it is strictly smaller, exactly
like the insertion sort JavaScript engines run on small arrays (a comparator
result of `NaN` has already been collapsed to `0` by `SortCompare`, so such a
pair counts as equal and `x` stays put). -/
def insertRev {α : Type} (cmp : α → α → Int) (x : α) : List α → List α
  | [] => [x]
  | y :: ys => if cmp x y < 0 then y :: insertRev cmp x ys else x :: y :: ys

/-- Fold of `insertRev` over the input; `acc` is the reversed sorted prefix. -/
def jsSortRev {α : Type} (cmp : α → α → Int) : List α → List α → List α
  | acc, [] => acc
  | acc, x :: xs => jsSortRev cmp (insertRev cmp x acc) xs

/-- `Array.prototype.sort(cmp)` as V8's stable insertion sort. -/
def jsSort {α : Type} (cmp : α → α → Int) (l : List α) : List α :=
  (jsSortRev cmp [] l).reverse

/-- Helper for `jsSplit`: cut the character list at each separator. -/
def splitChars (sep : Char) : List Char → List Char → List String
  | [], acc => [String.mk acc.reverse]
  | c :: cs, acc =>
    if c = sep then String.mk acc.reverse :: splitChars sep cs []
    else splitChars sep cs (c :: acc)

/-- JavaScript `s.split(sep)` for a one-character separator (`""` splits to
`[""]`, separators at the ends produce empty pieces, as in ECMAScript). -/
def jsSplit (s : String) (sep : Char) : List String :=
  splitChars sep s.toList []

/-- JavaScript `s.trim()` (ASCII whitespace set). -/
def jsTrim (s : String) : String :=
  String.mk (((s.toList.dropWhile jsIsSpace).reverse.dropWhile jsIsSpace).reverse)

/-- Character-list version of `String.startsWith`. -/
def startsWithChars : List Char → List Char → Bool
  | _, [] => true
  | [], _ :: _ => false
  | c :: cs, d :: ds => c = d && startsWithChars cs ds

/-- JavaScript `s.startsWith(pre)`. -/
def jsStartsWith (s pre : String) : Bool :=
  startsWithChars s.toList pre.toList

/-- One parsed VPN Gate record (`interface VPNServer` in `route.ts`). -/
structure VPNServer where
  hostname : String
  ip : String
  score : Int
  ping : String
  speed : Int
  countryLong : String
  countryShort : String
  numVpnSessions : Int
  uptime : Int
  totalUsers : Int
  totalTraffic : String
  logType : String
  operator : String
  message : String
  openVPNConfigDataBase64 : String
deriving DecidableEq, Repr

/-- Positional mapping of a split CSV line into a record (`route.ts:62-78`).
The caller guarantees at least 15 columns, so `getD` never hits its default. -/
def mkServer (columns : List String) : VPNServer :=
  { hostname := columns.getD 0 ""
    ip := columns.getD 1 ""
    score := jsParseIntOr0 (columns.getD 2 "")
    ping := columns.getD 3 ""
    speed := jsParseIntOr0 (columns.getD 4 "")
    countryLong := columns.getD 5 ""
    countryShort := columns.getD 6 ""
    numVpnSessions := jsParseIntOr0 (columns.getD 7 "")
    uptime := jsParseIntOr0 (columns.getD 8 "")
    totalUsers := jsParseIntOr0 (columns.getD 9 "")
    totalTraffic := columns.getD 10 ""
    logType := columns.getD 11 ""
    operator := columns.getD 12 ""
    message := columns.getD 13 ""
    openVPNConfigDataBase64 := columns.getD 14 "" }

/-- The parsing loop of `fetchVPNData` (`route.ts:55-84`), one line at a time:
trim; skip empty / `*` / `#` lines; split on `,`; skip short lines; keep the
record only when the config blob is truthy and longer than 100 characters. -/
def processLines : List String → List VPNServer
  | [] => []
  | l :: rest =>
    let line := jsTrim l
    if line = "" ∨ jsStartsWith line "*" ∨ jsStartsWith line "#" then processLines rest
    else
      let columns := jsSplit line ','
      if columns.length < 15 then processLines rest
      else
        let server := mkServer columns
        if server.openVPNConfigDataBase64 ≠ "" ∧ server.openVPNConfigDataBase64.length > 100 then
          server :: processLines rest
        else processLines rest

/-- Parsing part of `fetchVPNData`: split the body on newlines, skip the two
header lines, process the rest. -/
def parseVPNData (csvData : String) : List VPNServer :=
  processLines ((jsSplit csvData '\n').drop 2)

/-- `fetchVPNData` as a whole: a failed fetch (thrown error or non-2xx
status) propagates; a successful one returns the parsed body. -/
def fetchVPNData (fetchRes : Except String String) : Except String (List VPNServer) :=
  fetchRes.map parseVPNData

/-- `CACHE_TTL`: one hour in milliseconds. -/
def CACHE_TTL : Int := 60 * 60 * 1000

/-- The module-level `cache` object. -/
structure CacheState where
  data : Option (List VPNServer)
  timestamp : Int
  lastFetch : Int
deriving DecidableEq, Repr

/-- Cache at process start (`route.ts:7-15`). -/
def initialCache : CacheState := { data := none, timestamp := 0, lastFetch := 0 }

/-- `isCacheValid` (`route.ts:89-92`). -/
def isCacheValid (c : CacheState) (now : Int) : Bool :=
  c.data.isSome && decide (now - c.timestamp < CACHE_TTL)

/-- `getCachedData` (`route.ts:94-100`). -/
def getCachedData (c : CacheState) (now : Int) : Option (List VPNServer) :=
  if isCacheValid c now then c.data else none

/-- `setCacheData` (`route.ts:102-107`): full replacement of the cache. -/
def setCacheData (data : List VPNServer) (now : Int) : CacheState :=
  { data := some data, timestamp := now, lastFetch := now }

/-- The `cache` block of a success envelope (`route.ts:177-183`). -/
structure CacheMeta where
  hit : Bool
  age : Int
  ttl : Int
  lastFetch : Int
  duration : String
deriving DecidableEq, Repr

/-- Success envelope (`route.ts:170-184`); `offset`/`limit` echo the parsed
query numbers (`none` = `NaN`, serialised as `null`). -/
structure OkResponse where
  servers : List VPNServer
  count : Nat
  total : Nat
  hasMore : Bool
  offset : Option Int
  limit : Option Int
  cache : CacheMeta
deriving DecidableEq, Repr

/-- Error envelope (`route.ts:195-206`): no `servers` field at all. -/
structure ErrResponse where
  error : String
  details : String
  cacheAvailable : Bool
  cacheAge : Int
  status : Nat
deriving DecidableEq, Repr

/-- Result of one `GET` invocation. -/
inductive GetResult where
  | ok : OkResponse → GetResult
  | err : ErrResponse → GetResult
deriving DecidableEq, Repr

/-- Servers carried by a response: the error envelope has none. -/
def responseServers : GetResult → List VPNServer
  | .ok r => r.servers
  | .err _ => []

/-- `GET` outcome: the response, the cache state after the request, and
whether a live upstream fetch was attempted. -/
structure GetOutcome where
  result : GetResult
  state : CacheState
  fetched : Bool
deriving DecidableEq, Repr

/-- The four recognised query parameters, each possibly absent. -/
structure RequestParams where
  limit : Option String
  sortBy : Option String
  offset : Option String
  refresh : Option String
deriving DecidableEq, Repr

/-- `Number.parseInt(searchParams.get("limit") || "50")` (`route.ts:112`). -/
def paramLimit (p : RequestParams) : Option Int := jsParseInt (jsOrDefault p.limit "50")

/-- `searchParams.get("sortBy") || "score"` (`route.ts:113`). -/
def paramSortBy (p : RequestParams) : String := jsOrDefault p.sortBy "score"

/-- `Number.parseInt(searchParams.get("offset") || "0")` (`route.ts:114`). -/
def paramOffset (p : RequestParams) : Option Int := jsParseInt (jsOrDefault p.offset "0")

/-- `searchParams.get("refresh") === "true"` (`route.ts:115`). -/
def paramForce (p : RequestParams) : Bool := p.refresh = some "true"

/-- The `ping` comparator (`route.ts:148`): bare `Number.parseInt` of both
pings with NO `|| 0` fallback, so a non-numeric ping gives `NaN`, which
ECMAScript `SortCompare` collapses to `0` — the pair counts as equal. -/
def pingCmp (a b : VPNServer) : Int :=
  match jsParseInt a.ping, jsParseInt b.ping with
  | some x, some y => x - y
  | _, _ => 0

/-- The `switch (sortBy)` block (`route.ts:143-160`).  The `score` case and
the `default` case coincide. -/
def sortServers (sortBy : String) (servers : List VPNServer) : List VPNServer :=
  if sortBy = "speed" then jsSort (fun a b => b.speed - a.speed) servers
  else if sortBy = "ping" then jsSort pingCmp servers
  else if sortBy = "uptime" then jsSort (fun a b => b.uptime - a.uptime) servers
  else if sortBy = "users" then jsSort (fun a b => a.numVpnSessions - b.numVpnSessions) servers
  else jsSort (fun a b => b.score - a.score) servers

/-- Sort, paginate and shape the success envelope (`route.ts:141-184`).
`c` is the cache state at response-building time — after a successful refresh
it is the freshly written state, which is what `hit` is computed from. -/
def buildResponse (sortBy : String) (offset limit : Option Int) (forceRefresh : Bool)
    (servers : List VPNServer) (c : CacheState) (now : Int) : OkResponse :=
  let sortedServers := sortServers sortBy servers
  let paginatedServers := jsSlice sortedServers offset (optAdd offset limit)
  let hasMore := optLt (optAdd offset limit) (sortedServers.length : Int)
  let cacheAge := now - c.timestamp
  let timeUntilExpiry := max 0 (CACHE_TTL - cacheAge)
  { servers := paginatedServers
    count := paginatedServers.length
    total := sortedServers.length
    hasMore := hasMore
    offset := offset
    limit := limit
    cache :=
      { hit := (!forceRefresh) && isCacheValid c now
        age := cacheAge.fdiv 1000
        ttl := timeUntilExpiry.fdiv 1000
        lastFetch := c.lastFetch
        duration := "1 hour" } }

/-- Success envelope for request `p` answered from record set `servers` with
cache state `c` at time `now`. -/
def okFor (p : RequestParams) (servers : List VPNServer) (c : CacheState) (now : Int) :
    OkResponse :=
  buildResponse (paramSortBy p) (paramOffset p) (paramLimit p) (paramForce p) servers c now

/-- The `GET` handler (`route.ts:109-208`).  `fetchRes` is the outcome of the
upstream fetch were it attempted during this request. -/
def GET (p : RequestParams) (s0 : CacheState) (now : Int)
    (fetchRes : Except String String) : GetOutcome :=
  if paramForce p = false ∧ isCacheValid s0 now = true then
    { result := .ok (okFor p ((getCachedData s0 now).getD []) s0 now)
      state := s0
      fetched := false }
  else
    match fetchVPNData fetchRes with
    | .ok servers =>
      { result := .ok (okFor p servers (setCacheData servers now) now)
        state := setCacheData servers now
        fetched := true }
    | .error msg =>
      match s0.data with
      | some d =>
        { result := .ok (okFor p d s0 now)
          state := s0
          fetched := true }
      | none =>
        { result := .err
            { error := "Failed to fetch VPN servers"
              details := msg
              cacheAvailable := s0.data.isSome
              cacheAge := if s0.data.isSome then (now - s0.timestamp).fdiv 1000 else 0
              status := 500 }
          state := s0
          fetched := true }

/-- A sample record used by concrete instances below. -/
def sampleServer : VPNServer :=
  { hostname := "vpn1", ip := "1.2.3.4", score := 500, ping := "10", speed := 1000
    countryLong := "Japan", countryShort := "JP", numVpnSessions := 3, uptime := 99
    totalUsers := 7, totalTraffic := "123", logType := "2weeks", operator := "op"
    message := "", openVPNConfigDataBase64 := String.mk (List.replicate 101 'a') }

example : jsParseInt "50" = some 50 := by decide
example : jsParseInt "-5" = some (-5) := by decide
example : jsParseInt "abc" = none := by decide
example : jsParseIntOr0 "abc" = 0 := by decide

/-- A feed body with two header lines, one good record, a comment line and a
short line. -/
def sampleRaw : String :=
  "h1\nh2\nvpn1,1.2.3.4,500,10,1000,Japan,JP,3,99,7,123,2weeks,op,msg,"
    ++ String.mk (List.replicate 101 'a') ++ "\n*comment\nshort,line"

/-- 120 identical cached records, used by the pagination instances. -/
def l120 : List VPNServer := List.replicate 120 sampleServer

/-- A cache holding `l120`, fetched at time 0. -/
def cache120 : CacheState := { data := some l120, timestamp := 0, lastFetch := 0 }

/-- A cache holding one record, fetched at time 0 (expired by time
`CACHE_TTL`). -/
def cacheOne : CacheState := { data := some [sampleServer], timestamp := 0, lastFetch := 0 }

/-- C1: a failing refresh cycle with a previously stored set answers with that
set (sorted/paginated as requested), leaves the cache state — including the
timestamp — untouched, identically for forced and non-forced requests (the
statement does not constrain `p.refresh`); and the handler returns a success
envelope whenever the fetch succeeds or a previous set exists. -/
theorem C1_stale_fallback (p : RequestParams) (s0 : CacheState) (now : Int) (msg : String)
    (d : List VPNServer) (hd : s0.data = some d) :
    ((GET p s0 now (.error msg)).state = s0 ∧
     (GET p s0 now (.error msg)).result = .ok (okFor p d s0 now)) ∧
    (∀ (s : CacheState) (raw : String), ∃ r, (GET p s now (.ok raw)).result = .ok r) := by
  constructor
  · unfold GET
    split
    · next h =>
      have hv : getCachedData s0 now = some d := by
        unfold getCachedData
        rw [if_pos h.2, hd]
      simp [hv]
    · simp [fetchVPNData, Except.map, hd]
  · intro s raw
    unfold GET
    split
    · exact ⟨_, rfl⟩
    · exact ⟨_, rfl⟩

/-- Closed instance of `C1_stale_fallback`: an expired one-record cache, a
failing fetch at time `2 * CACHE_TTL`. -/
theorem C1_stale_fallback_witness :
    (((GET ⟨none, none, none, none⟩ cacheOne 7200000 (.error "boom")).state = cacheOne ∧
      (GET ⟨none, none, none, none⟩ cacheOne 7200000 (.error "boom")).result
        = .ok (okFor ⟨none, none, none, none⟩ [sampleServer] cacheOne 7200000)) ∧
     (∀ (s : CacheState) (raw : String),
        ∃ r, (GET ⟨none, none, none, none⟩ s 7200000 (.ok raw)).result = .ok r)) :=
  C1_stale_fallback ⟨none, none, none, none⟩ cacheOne 7200000 "boom" [sampleServer] rfl

/-- C3: on a cold start (nothing ever cached) with a failing fetch, the
handler returns the 500 error envelope `{error, details}` with no servers. -/
theorem C3_cold_start_error (p : RequestParams) (s0 : CacheState) (now : Int) (msg : String)
    (hd : s0.data = none) :
    (GET p s0 now (.error msg)).result = .err
        { error := "Failed to fetch VPN servers", details := msg
          cacheAvailable := false, cacheAge := 0, status := 500 } ∧
    responseServers (GET p s0 now (.error msg)).result = [] := by
  have hv : isCacheValid s0 now = false := by
    unfold isCacheValid
    rw [hd]
    rfl
  unfold GET
  rw [hv]
  simp [fetchVPNData, Except.map, hd, responseServers]

/-- Closed instance of `C3_cold_start_error` at the initial cache state. -/
theorem C3_cold_start_error_witness :
    (GET ⟨none, none, none, none⟩ initialCache 5 (.error "down")).result = .err
        { error := "Failed to fetch VPN servers", details := "down"
          cacheAvailable := false, cacheAge := 0, status := 500 } ∧
    responseServers (GET ⟨none, none, none, none⟩ initialCache 5 (.error "down")).result = [] :=
  C3_cold_start_error ⟨none, none, none, none⟩ initialCache 5 "down" rfl

/-- C4 (code bug): a successful NON-forced refresh reports `cache.hit = true`,
because `hit` is computed as `!forceRefresh && isCacheValid()` after
`setCacheData` has just made the cache valid; `age` is 0 as the spec says.
Evaluated at the failing input: cold start, no parameters, fetch succeeds. -/
theorem C4_hit_true_after_refresh :
    ∃ r, (GET ⟨none, none, none, none⟩ initialCache 7200000 (.ok sampleRaw)).result = .ok r ∧
      r.cache.hit = true ∧ r.cache.age = 0 ∧ r.count = 1 :=
  ⟨_, rfl, rfl, rfl, rfl⟩

/-- C10: negative offsets follow JavaScript slice normalisation: with 120
cached records, `limit=50`, `offset=-5`, the page is empty (`count = 0`) while
`hasMore = true` and `total = 120`. -/
theorem C10_negative_offset :
    ∃ r, (GET ⟨some "50", none, some "-5", none⟩ cache120 0 (.error "x")).result = .ok r ∧
      r.count = 0 ∧ r.servers = [] ∧ r.hasMore = true ∧ r.total = 120 :=
  ⟨_, rfl, rfl, rfl, rfl, rfl⟩

/-- C7: `refresh=true` always triggers a live fetch attempt, even when the
stored set is present and fresh; with the parameter absent or not `"true"`,
a fresh non-empty stored set is returned with `cache.hit = true`, no fetch. -/
theorem C7_force_vs_fresh (p : RequestParams) (s0 : CacheState) (now : Int)
    (d : List VPNServer) :
    (p.refresh = some "true" → ∀ f, (GET p s0 now f).fetched = true) ∧
    (p.refresh ≠ some "true" → s0.data = some d → d ≠ [] → isCacheValid s0 now = true →
      ∀ f, (GET p s0 now f).fetched = false ∧
        (GET p s0 now f).result = .ok (okFor p d s0 now) ∧
        (okFor p d s0 now).cache.hit = true) := by
  constructor
  · intro hr f
    have hforce : paramForce p = true := by simp [paramForce, hr]
    unfold GET
    rw [hforce]
    simp only [Bool.true_eq_false, false_and, if_false]
    cases fetchVPNData f with
    | ok servers => rfl
    | error msg =>
      cases hdata : s0.data with
      | some d => simp [hdata]
      | none => simp [hdata]
  · intro hr hd _ hv f
    have hforce : paramForce p = false := by simp [paramForce, hr]
    have hc : getCachedData s0 now = some d := by
      unfold getCachedData
      rw [if_pos hv, hd]
    unfold GET
    rw [hforce, hv]
    refine ⟨by simp, by simp [hc], ?_⟩
    simp [okFor, buildResponse, hforce, hv]

/-- Closed instance of `C7_force_vs_fresh`: a fresh one-record cache at time
1000, once with `refresh=true` (fetch attempted) and once without (no fetch,
`hit = true`, cached set returned). -/
theorem C7_force_vs_fresh_witness :
    (GET ⟨none, none, none, some "true"⟩ cacheOne 1000 (.error "down")).fetched = true ∧
    (GET ⟨none, none, none, none⟩ cacheOne 1000 (.error "down")).fetched = false ∧
    (GET ⟨none, none, none, none⟩ cacheOne 1000 (.error "down")).result
      = .ok (okFor ⟨none, none, none, none⟩ [sampleServer] cacheOne 1000) ∧
    (okFor ⟨none, none, none, none⟩ [sampleServer] cacheOne 1000).cache.hit = true := by
  refine ⟨(C7_force_vs_fresh ⟨none, none, none, some "true"⟩ cacheOne 1000 [sampleServer]).1
      rfl (.error "down"), ?_⟩
  have h := (C7_force_vs_fresh ⟨none, none, none, none⟩ cacheOne 1000 [sampleServer]).2
    (by decide) rfl (by decide) (by decide) (.error "down")
  exact ⟨h.1, h.2.1, h.2.2⟩

/-- C8 counterexample: with 120 fresh cached records, `offset=abc` (parsing to
`NaN`) and `limit=50` yield an EMPTY page — not the 50-record page that
degrading to the documented defaults (`offset = 0`) produces. -/
theorem C8_nan_offset_not_defaulted :
    ∃ r r', (GET ⟨some "50", none, some "abc", none⟩ cache120 0 (.error "x")).result = .ok r ∧
      (GET ⟨some "50", none, some "0", none⟩ cache120 0 (.error "x")).result = .ok r' ∧
      r.count = 0 ∧ r.servers = [] ∧ r'.count = 50 ∧ r.count ≠ r'.count :=
  ⟨_, _, rfl, rfl, rfl, rfl, rfl, by decide⟩

/-- C8 amended: an unrecognised `sortBy` degrades to the default `score`
order, and the endpoint still answers with a success envelope (here: whenever
the cache is valid); but out-of-range pagination values are NOT replaced by
the defaults: a `NaN` offset or limit flows into `slice`, whose `NaN`→0
normalisation empties the page. -/
theorem C8_amended_degrade (p : RequestParams) (s0 : CacheState) (now : Int)
    (f : Except String String) (hv : isCacheValid s0 now = true) :
    (∃ r, (GET p s0 now f).result = .ok r) ∧
    (∀ s, ¬(s = "speed" ∨ s = "ping" ∨ s = "uptime" ∨ s = "users") →
      ∀ servers, sortServers s servers = sortServers "score" servers) ∧
    (∀ (l : List VPNServer) (q : Option Int), jsSlice l none (optAdd none q) = []) ∧
    (∀ (l : List VPNServer) (k : Int), jsSlice l (some k) (optAdd (some k) none) = []) := by
  refine ⟨?_, ?_, ?_, ?_⟩
  · unfold GET
    split
    · exact ⟨_, rfl⟩
    · cases hf : fetchVPNData f with
      | ok servers => simp
      | error msg =>
        have : s0.data.isSome = true := by
          unfold isCacheValid at hv
          exact (Bool.and_eq_true ..).mp hv |>.1
        cases hdata : s0.data with
        | none => rw [hdata] at this; simp at this
        | some d => simp [hdata]
  · intro s hs servers
    push_neg at hs
    simp [sortServers, hs.1, hs.2.1, hs.2.2.1, hs.2.2.2]
  · intro l q
    simp [jsSlice, optAdd, jsSliceIdx]
  · intro l k
    simp [jsSlice, optAdd, jsSliceIdx]

/-- Closed instance of `C8_amended_degrade` at a fresh one-record cache. -/
theorem C8_amended_degrade_witness :
    ((∃ r, (GET ⟨none, some "bogus", none, none⟩ cacheOne 0 (.error "x")).result = .ok r) ∧
     (∀ s, ¬(s = "speed" ∨ s = "ping" ∨ s = "uptime" ∨ s = "users") →
       ∀ servers, sortServers s servers = sortServers "score" servers) ∧
     (∀ (l : List VPNServer) (q : Option Int), jsSlice l none (optAdd none q) = []) ∧
     (∀ (l : List VPNServer) (k : Int), jsSlice l (some k) (optAdd (some k) none) = [])) :=
  C8_amended_degrade ⟨none, some "bogus", none, none⟩ cacheOne 0 (.error "x") (by decide)

/-- C2's retention test, phrased as the claim phrases it: the trimmed line is
non-empty, does not start with `*` or `#`, splits into at least 15
comma-separated fields, and its 15th field is longer than 100 characters. -/
def claimKeeps (l : String) : Bool :=
  let line := jsTrim l
  let columns := jsSplit line ','
  decide (line ≠ "") && !(jsStartsWith line "*") && !(jsStartsWith line "#")
    && decide (columns.length ≥ 15) && decide ((columns.getD 14 "").length > 100)

/-- C2's record for a retained line: positional mapping of its fields. -/
def claimRecord (l : String) : VPNServer := mkServer (jsSplit (jsTrim l) ',')

/-- A string longer than 100 characters is not empty. -/
theorem ne_empty_of_long (s : String) (h : 100 < s.length) : s ≠ "" := by
  intro he
  subst he
  exact absurd h (by decide)

/-- The parsing loop retains exactly the lines passing `claimKeeps`, each
mapped by `claimRecord`; no line affects any other line's fate. -/
theorem processLines_eq_filterMap (ls : List String) :
    processLines ls = (ls.filter claimKeeps).map claimRecord := by
  induction ls with
  | nil => rfl
  | cons l rest ih =>
    unfold processLines
    by_cases h1 : jsTrim l = "" ∨ jsStartsWith (jsTrim l) "*" = true
        ∨ jsStartsWith (jsTrim l) "#" = true
    · have hk : claimKeeps l = false := by
        unfold claimKeeps
        rcases h1 with h | h | h <;> simp [h]
      rw [if_pos h1, List.filter_cons, hk]
      simpa using ih
    · rw [if_neg h1]
      push_neg at h1
      by_cases h2 : (jsSplit (jsTrim l) ',').length < 15
      · have hk : claimKeeps l = false := by
          unfold claimKeeps
          simp [Nat.not_le.mpr h2]
        rw [if_pos h2, List.filter_cons, hk]
        simpa using ih
      · rw [if_neg h2]
        by_cases h3 : 100 < ((jsSplit (jsTrim l) ',').getD 14 "").length
        · have hcode : (mkServer (jsSplit (jsTrim l) ',')).openVPNConfigDataBase64 ≠ ""
              ∧ (mkServer (jsSplit (jsTrim l) ',')).openVPNConfigDataBase64.length > 100 := by
            refine ⟨?_, h3⟩
            exact ne_empty_of_long _ h3
          have hk : claimKeeps l = true := by
            have h3' := h3
            rw [List.getD_eq_getElem?_getD] at h3'
            unfold claimKeeps
            simp [h1.1, h1.2.1, h1.2.2, Nat.not_lt.mp h2, h3']
          rw [if_pos hcode, List.filter_cons, hk]
          simp [claimRecord, ih]
        · have hcode : ¬((mkServer (jsSplit (jsTrim l) ',')).openVPNConfigDataBase64 ≠ ""
              ∧ (mkServer (jsSplit (jsTrim l) ',')).openVPNConfigDataBase64.length > 100) := by
            intro hc
            exact h3 hc.2
          have hk : claimKeeps l = false := by
            have h3' := h3
            rw [List.getD_eq_getElem?_getD] at h3'
            unfold claimKeeps
            simp [Nat.not_lt.mp h3']
          rw [if_neg hcode, List.filter_cons, hk]
          simpa using ih

/-- C2: the parser keeps exactly one record per post-header line whose trimmed
text is non-empty, not `*`/`#`-prefixed, with at least 15 fields and a 15th
field longer than 100 characters, mapped positionally (numeric fields through
the zero-on-failure conversion); bad lines are dropped individually and never
abort the parse. -/
theorem C2_parser_characterization (raw : String) :
    parseVPNData raw = (((jsSplit raw '\n').drop 2).filter claimKeeps).map claimRecord :=
  processLines_eq_filterMap ((jsSplit raw '\n').drop 2)

/-- Branch evaluation: cache hit (no force, valid cache). -/
theorem GET_hit (p : RequestParams) (s : CacheState) (t : Int) (f : Except String String)
    (d : List VPNServer) (hpf : paramForce p = false) (hv : isCacheValid s t = true)
    (hd : s.data = some d) :
    GET p s t f = { result := .ok (okFor p d s t), state := s, fetched := false } := by
  have hc : getCachedData s t = some d := by
    unfold getCachedData
    rw [if_pos hv, hd]
  unfold GET
  rw [if_pos ⟨hpf, hv⟩, hc]
  rfl

/-- Branch evaluation: refresh attempted and the fetch succeeds. -/
theorem GET_refresh_ok (p : RequestParams) (s : CacheState) (t : Int) (raw : String)
    (h : ¬(paramForce p = false ∧ isCacheValid s t = true)) :
    GET p s t (.ok raw) =
      { result := .ok (okFor p (parseVPNData raw) (setCacheData (parseVPNData raw) t) t)
        state := setCacheData (parseVPNData raw) t
        fetched := true } := by
  unfold GET
  rw [if_neg h]
  rfl

/-- Branch evaluation: refresh attempted, fetch fails, stale data exists. -/
theorem GET_fallback (p : RequestParams) (s : CacheState) (t : Int) (msg : String)
    (d : List VPNServer) (h : ¬(paramForce p = false ∧ isCacheValid s t = true))
    (hd : s.data = some d) :
    GET p s t (.error msg) =
      { result := .ok (okFor p d s t), state := s, fetched := true } := by
  unfold GET
  rw [if_neg h]
  simp [fetchVPNData, Except.map, hd]

/-- A valid cache holds some data. -/
theorem isCacheValid_data (s : CacheState) (t : Int) (hv : isCacheValid s t = true) :
    ∃ d, s.data = some d := by
  unfold isCacheValid at hv
  exact Option.isSome_iff_exists.mp ((Bool.and_eq_true _ _).mp hv).1

/-- C9: two calls with the same parameters, no force, and the cache still
valid at the second call (no intervening TTL expiry) return the same server
page, and the second call is a cache hit (`cache.hit = true`) with no fetch. -/
theorem C9_idempotent (p : RequestParams) (s0 : CacheState) (t1 t2 : Int)
    (f1 f2 : Except String String)
    (hforce : p.refresh ≠ some "true")
    (hv2 : isCacheValid (GET p s0 t1 f1).state t2 = true) :
    ∃ r1 r2, (GET p s0 t1 f1).result = .ok r1 ∧
      (GET p (GET p s0 t1 f1).state t2 f2).result = .ok r2 ∧
      r2.servers = r1.servers ∧ r2.count = r1.count ∧
      r2.cache.hit = true ∧ (GET p (GET p s0 t1 f1).state t2 f2).fetched = false := by
  have hpf : paramForce p = false := by
    simp [paramForce, hforce]
  by_cases hv1 : isCacheValid s0 t1 = true
  · obtain ⟨d, hd⟩ := isCacheValid_data s0 t1 hv1
    rw [GET_hit p s0 t1 f1 d hpf hv1 hd] at hv2 ⊢
    rw [GET_hit p s0 t2 f2 d hpf hv2 hd]
    refine ⟨okFor p d s0 t1, okFor p d s0 t2, rfl, rfl, rfl, rfl, ?_, rfl⟩
    simp [okFor, buildResponse, hpf, hv2]
  · have hcond : ¬(paramForce p = false ∧ isCacheValid s0 t1 = true) := by
      intro hc
      exact hv1 hc.2
    cases f1 with
    | ok raw =>
      rw [GET_refresh_ok p s0 t1 raw hcond] at hv2 ⊢
      have hd1 : (setCacheData (parseVPNData raw) t1).data = some (parseVPNData raw) := rfl
      rw [GET_hit p (setCacheData (parseVPNData raw) t1) t2 f2 (parseVPNData raw) hpf hv2 hd1]
      refine ⟨_, _, rfl, rfl, rfl, rfl, ?_, rfl⟩
      simp [okFor, buildResponse, hpf, hv2]
    | error msg =>
      cases hdata : s0.data with
      | some d =>
        rw [GET_fallback p s0 t1 msg d hcond hdata] at hv2 ⊢
        rw [GET_hit p s0 t2 f2 d hpf hv2 hdata]
        refine ⟨_, _, rfl, rfl, rfl, rfl, ?_, rfl⟩
        simp [okFor, buildResponse, hpf, hv2]
      | none =>
        exfalso
        have hstate : (GET p s0 t1 (.error msg)).state = s0 := by
          unfold GET
          rw [if_neg hcond]
          simp [fetchVPNData, Except.map, hdata]
        rw [hstate] at hv2
        unfold isCacheValid at hv2
        rw [hdata] at hv2
        simp at hv2

/-- Closed instance of `C9_idempotent`: a fresh one-record cache queried twice
1 second apart with default parameters. -/
theorem C9_idempotent_witness :
    ∃ r1 r2, (GET ⟨none, none, none, none⟩ cacheOne 0 (.error "e")).result = .ok r1 ∧
      (GET ⟨none, none, none, none⟩ (GET ⟨none, none, none, none⟩ cacheOne 0 (.error "e")).state
          1000 (.error "e2")).result = .ok r2 ∧
      r2.servers = r1.servers ∧ r2.count = r1.count ∧
      r2.cache.hit = true ∧
      (GET ⟨none, none, none, none⟩ (GET ⟨none, none, none, none⟩ cacheOne 0 (.error "e")).state
          1000 (.error "e2")).fetched = false :=
  C9_idempotent ⟨none, none, none, none⟩ cacheOne 0 1000 (.error "e") (.error "e2")
    (by decide) (by decide)

/-- `insertRev` only rearranges: the result is a permutation of `x :: l`. -/
theorem insertRev_perm {α : Type} (cmp : α → α → Int) (x : α) (l : List α) :
    List.Perm (insertRev cmp x l) (x :: l) := by
  induction l with
  | nil => exact List.Perm.refl _
  | cons y ys ih =>
    unfold insertRev
    split
    · exact (ih.cons y).trans (List.Perm.swap x y ys)
    · exact List.Perm.refl _

/-- Membership in an `insertRev` result. -/
theorem mem_insertRev {α : Type} (cmp : α → α → Int) (x z : α) (l : List α)
    (hz : z ∈ insertRev cmp x l) : z = x ∨ z ∈ l := by
  have := (insertRev_perm cmp x l).mem_iff.mp hz
  simpa using this

/-- Inserting into a reverse-sorted prefix keeps it reverse-sorted, provided
the comparator agrees with the key `k` on all elements involved (predicate
`Q` carves out those elements). -/
theorem insertRev_pairwise {α : Type} (cmp : α → α → Int) (k : α → Int) (Q : α → Prop)
    (hcmp : ∀ a b, Q a → Q b → (cmp a b < 0 ↔ k a < k b))
    (x : α) (hx : Q x) :
    ∀ acc : List α, (∀ y ∈ acc, Q y) →
      acc.Pairwise (fun a b => k b ≤ k a) →
      (insertRev cmp x acc).Pairwise (fun a b => k b ≤ k a) := by
  intro acc
  induction acc with
  | nil =>
    intro _ _
    simp [insertRev]
  | cons y ys ih =>
    intro hQ hp
    rw [List.pairwise_cons] at hp
    unfold insertRev
    split
    · next hlt =>
      rw [List.pairwise_cons]
      refine ⟨?_, ih (fun z hz => hQ z (List.mem_cons_of_mem y hz)) hp.2⟩
      intro z hz
      rcases mem_insertRev cmp x z ys hz with rfl | hzys
      · exact le_of_lt ((hcmp z y hx (hQ y (List.mem_cons_self y ys))).mp hlt)
      · exact hp.1 z hzys
    · next hge =>
      rw [List.pairwise_cons]
      constructor
      · intro z hz
        rcases List.mem_cons.mp hz with rfl | hzys
        · exact not_lt.mp (fun hk =>
            hge ((hcmp x z hx (hQ z (List.mem_cons_self z ys))).mpr hk))
        · exact le_trans (hp.1 z hzys)
            (not_lt.mp (fun hk =>
              hge ((hcmp x y hx (hQ y (List.mem_cons_self y ys))).mpr hk)))
      · exact List.pairwise_cons.mpr hp

/-- The `jsSortRev` loop keeps the accumulator reverse-sorted. -/
theorem jsSortRev_pairwise {α : Type} (cmp : α → α → Int) (k : α → Int) (Q : α → Prop)
    (hcmp : ∀ a b, Q a → Q b → (cmp a b < 0 ↔ k a < k b)) :
    ∀ (l acc : List α), (∀ x ∈ l, Q x) → (∀ x ∈ acc, Q x) →
      acc.Pairwise (fun a b => k b ≤ k a) →
      (jsSortRev cmp acc l).Pairwise (fun a b => k b ≤ k a) := by
  intro l
  induction l with
  | nil =>
    intro acc _ _ hp
    exact hp
  | cons x xs ih =>
    intro acc hl hacc hp
    unfold jsSortRev
    apply ih
    · intro z hz
      exact hl z (List.mem_cons_of_mem x hz)
    · intro z hz
      rcases mem_insertRev cmp x z acc hz with h | h
      · subst h
        exact hl _ (List.mem_cons_self _ _)
      · exact hacc z h
    · exact insertRev_pairwise cmp k Q hcmp x (hl x (List.mem_cons_self x xs)) acc hacc hp

/-- When all elements are in the comparator's well-behaved region, `jsSort`
produces a list ascending in the key. -/
theorem jsSort_pairwise {α : Type} (cmp : α → α → Int) (k : α → Int) (Q : α → Prop)
    (hcmp : ∀ a b, Q a → Q b → (cmp a b < 0 ↔ k a < k b))
    (l : List α) (hl : ∀ x ∈ l, Q x) :
    (jsSort cmp l).Pairwise (fun a b => k a ≤ k b) := by
  unfold jsSort
  rw [List.pairwise_reverse]
  exact jsSortRev_pairwise cmp k Q hcmp l [] hl (by simp) (by simp)

/-- The parsed ping of a record, `0` for a non-numeric ping. -/
def pingVal (a : VPNServer) : Int := (jsParseInt a.ping).getD 0

/-- A record differing from `sampleServer` only in `hostname` and `ping`. -/
def pingServer (h pg : String) : VPNServer := { sampleServer with hostname := h, ping := pg }

/-- C5 counterexample: sorting pings `"10"`, `"abc"`, `"2"` (in that input
order) by `sortBy=ping` leaves the order unchanged — `"abc"` gives `NaN`, the
comparator result is collapsed to `0`, and the insertion sort never moves any
of the three — instead of the claimed `"abc"`, `"2"`, `"10"`. -/
theorem C5_counterexample :
    (sortServers "ping" [pingServer "a" "10", pingServer "b" "abc", pingServer "c" "2"]).map
        (fun r => r.ping) = ["10", "abc", "2"] ∧
    (sortServers "ping" [pingServer "a" "10", pingServer "b" "abc", pingServer "c" "2"]).map
        (fun r => r.ping) ≠ ["abc", "2", "10"] :=
  ⟨rfl, by decide⟩

/-- C5 amended: under `sortBy=ping` the output is ascending in the parsed
ping whenever every ping is numeric; a non-numeric ping makes the bare
`parseInt` comparator return `NaN`, treated as "equal", so such records keep
their relative position instead of sorting first — on pings `"10"`, `"abc"`,
`"2"` the output order is `"10"`, `"abc"`, `"2"`. -/
theorem C5_amended_ping_order (l : List VPNServer)
    (h : ∀ a ∈ l, (jsParseInt a.ping).isSome = true) :
    (sortServers "ping" l).Pairwise (fun a b => pingVal a ≤ pingVal b) ∧
    (sortServers "ping" [pingServer "a" "10", pingServer "b" "abc", pingServer "c" "2"]).map
        (fun r => r.ping) = ["10", "abc", "2"] := by
  refine ⟨?_, rfl⟩
  have hs : sortServers "ping" l = jsSort pingCmp l := rfl
  rw [hs]
  apply jsSort_pairwise pingCmp pingVal (fun a => (jsParseInt a.ping).isSome = true)
  · intro a b ha hb
    obtain ⟨x, hx⟩ := Option.isSome_iff_exists.mp ha
    obtain ⟨y, hy⟩ := Option.isSome_iff_exists.mp hb
    unfold pingCmp pingVal
    rw [hx, hy]
    simp [Int.sub_neg]
  · exact h

/-- Closed instance of `C5_amended_ping_order` on an all-numeric list. -/
theorem C5_amended_ping_order_witness :
    (sortServers "ping" [pingServer "a" "10", pingServer "c" "2"]).Pairwise
        (fun a b => pingVal a ≤ pingVal b) ∧
    (sortServers "ping" [pingServer "a" "10", pingServer "b" "abc", pingServer "c" "2"]).map
        (fun r => r.ping) = ["10", "abc", "2"] :=
  C5_amended_ping_order [pingServer "a" "10", pingServer "c" "2"] (by decide)

/-- For a non-negative start and length, JavaScript `slice(a, a+b)` is the
mathematical sublist `drop a`-then-`take b`. -/
theorem jsSlice_nonneg {α : Type} (l : List α) (a b : Int) (ha : 0 ≤ a) (hb : 0 ≤ b) :
    jsSlice l (some a) (some (a + b)) = (l.drop a.toNat).take b.toNat := by
  unfold jsSlice jsSliceIdx
  have hab : 0 ≤ a + b := add_nonneg ha hb
  simp only [Option.getD_some]
  rw [if_neg (not_lt.mpr hab), if_neg (not_lt.mpr ha), Int.toNat_add ha hb]
  rw [List.drop_take]
  by_cases hA : a.toNat ≤ l.length
  · rw [Nat.min_eq_left hA]
    apply List.take_eq_take.mpr
    rw [List.length_drop]
    omega
  · rw [Nat.min_eq_right (le_of_not_le hA)]
    have h1 : min (a.toNat + b.toNat) l.length = l.length := by
      apply Nat.min_eq_right
      omega
    rw [h1, Nat.sub_self]
    rw [List.drop_eq_nil_of_le (by omega : l.length ≤ a.toNat)]
    simp

/-- C6: with a non-negative offset and positive limit the page is
`sorted[offset : offset+limit]` (as drop-then-take), `hasMore` holds exactly
when `offset + limit < total`, and `total` is the full sorted length; with 120
records, `limit=50, offset=100` gives 20 records and `hasMore = false`, while
`offset=0` gives 50 records and `hasMore = true`. -/
theorem C6_pagination (sortBy : String) (servers : List VPNServer) (c : CacheState)
    (now : Int) (force : Bool) (off lim : Int) (h1 : 0 ≤ off) (h2 : 0 < lim) :
    ((buildResponse sortBy (some off) (some lim) force servers c now).servers
        = ((sortServers sortBy servers).drop off.toNat).take lim.toNat) ∧
    ((buildResponse sortBy (some off) (some lim) force servers c now).hasMore = true
        ↔ off + lim < ((sortServers sortBy servers).length : Int)) ∧
    ((buildResponse sortBy (some off) (some lim) force servers c now).total
        = (sortServers sortBy servers).length) ∧
    (∃ r, (GET ⟨some "50", none, some "100", none⟩ cache120 0 (.error "x")).result = .ok r ∧
        r.count = 20 ∧ r.hasMore = false ∧ r.total = 120) ∧
    (∃ r, (GET ⟨some "50", none, some "0", none⟩ cache120 0 (.error "x")).result = .ok r ∧
        r.count = 50 ∧ r.hasMore = true ∧ r.total = 120) := by
  refine ⟨?_, ?_, rfl, ⟨_, rfl, rfl, rfl, rfl⟩, ⟨_, rfl, rfl, rfl, rfl⟩⟩
  · show jsSlice (sortServers sortBy servers) (some off) (optAdd (some off) (some lim))
        = ((sortServers sortBy servers).drop off.toNat).take lim.toNat
    rw [show optAdd (some off) (some lim) = some (off + lim) from rfl]
    exact jsSlice_nonneg (sortServers sortBy servers) off lim h1 (le_of_lt h2)
  · show optLt (optAdd (some off) (some lim)) ((sortServers sortBy servers).length : Int) = true
        ↔ off + lim < ((sortServers sortBy servers).length : Int)
    simp [optAdd, optLt]

/-- Closed instance of `C6_pagination` at `offset = 0`, `limit = 1`. -/
theorem C6_pagination_witness :
    (((buildResponse "score" (some 0) (some 1) false [sampleServer] initialCache 0).servers
        = ((sortServers "score" [sampleServer]).drop (0 : Int).toNat).take (1 : Int).toNat) ∧
     ((buildResponse "score" (some 0) (some 1) false [sampleServer] initialCache 0).hasMore = true
        ↔ (0 : Int) + 1 < ((sortServers "score" [sampleServer]).length : Int)) ∧
     ((buildResponse "score" (some 0) (some 1) false [sampleServer] initialCache 0).total
        = (sortServers "score" [sampleServer]).length) ∧
     (∃ r, (GET ⟨some "50", none, some "100", none⟩ cache120 0 (.error "x")).result = .ok r ∧
        r.count = 20 ∧ r.hasMore = false ∧ r.total = 120) ∧
     (∃ r, (GET ⟨some "50", none, some "0", none⟩ cache120 0 (.error "x")).result = .ok r ∧
        r.count = 50 ∧ r.hasMore = true ∧ r.total = 120)) :=
  C6_pagination "score" [sampleServer] initialCache 0 false 0 1 (by decide) (by decide)
